import Mathlib

/-!
# Verification of the gis_portfolio environmental simulators

Shallow embedding of the three simulator modules of the repository

* `src/modules/floodsim_module.py`   (`FloodSimulator`),
* `src/modules/windsim_module.py`    (`WindSimulator`),
* `src/modules/thermalsim_module.py` (`ThermalComfortSimulator`),

followed by theorems settling the specification claims.

Python floats are idealised as rationals (`ℚ`), so every definition is
executable and decidable.  The numeric library functions that are external to
the repository (`np.exp`, `np.log`, `np.sqrt`, `x ** 0.25`, `np.cos`,
`np.sin`, `np.radians`, the built-in `hash`) are taken as explicit functional
parameters, and the NumPy pseudo-random draws are modelled by an `Entropy`
family of deterministic draws indexed by the seed and a draw counter, which is
exactly what the seeded Mersenne Twister used by `np.random` provides.  The
global `np.random` generator state is threaded explicitly (`RngState`), so the
reseeding performed by the point generators is visible in the model.
-/

namespace GisPortfolio

/-- Python truncation toward zero, the behaviour of `int(x)` on a float. -/
def pyTrunc (q : ℚ) : ℤ := if 0 ≤ q then ⌊q⌋ else ⌈q⌉

/-- Round half to even on rationals, the rounding mode of Python `round`:
the floor when the fractional part is below one half, the ceiling when it is
above, and the even neighbour on an exact tie. -/
def roundHalfEven (x : ℚ) : ℤ :=
  if x - (⌊x⌋ : ℚ) < 1/2 then ⌊x⌋
  else if 1/2 < x - (⌊x⌋ : ℚ) then ⌊x⌋ + 1
  else if ⌊x⌋ % 2 = 0 then ⌊x⌋ else ⌊x⌋ + 1

/-- Python `round(x, n)`: round half to even at `n` decimal digits. -/
def pyRound (x : ℚ) (n : ℕ) : ℚ := (roundHalfEven (x * 10 ^ n) : ℚ) / 10 ^ n

/-- Python `%` on floats for a positive modulus (the sign follows the divisor),
used for `(direction + deviation) % 360`. -/
def pyMod (a m : ℚ) : ℚ := a - m * ⌊a / m⌋

/-- The global NumPy generator state as the modules use it: the seed last
passed to `np.random.seed` together with the number of draws made since then.
Every point generator of the repository reseeds this state before drawing. -/
abbrev RngState := ℕ × ℕ

/-- The pseudo-random primitives of `np.random`, modelled as a deterministic
family of draws indexed by the current seed and draw counter (which is what a
seeded Mersenne Twister is).  `normal`, `uniform` and `exponential` receive
the distribution parameters of the corresponding NumPy call; `choice` returns
the index of the selected element among `k` weighted options. -/
structure Entropy where
  normal : ℕ → ℕ → ℚ → ℚ → ℚ
  uniform : ℕ → ℕ → ℚ → ℚ → ℚ
  exponential : ℕ → ℕ → ℚ → ℚ
  choice : ℕ → ℕ → ℕ → ℕ

/-- Support property of `np.random.uniform(a, b)`: every draw lies in `[a, b]`. -/
def Entropy.UniformInRange (E : Entropy) : Prop :=
  ∀ seed ctr a b, a ≤ b → a ≤ E.uniform seed ctr a b ∧ E.uniform seed ctr a b ≤ b

/-- An `Entropy` family returning the distribution parameters themselves,
used to evaluate the generators on concrete inputs. -/
def constantEntropy : Entropy where
  normal := fun _ _ mu _ => mu
  uniform := fun _ _ a _ => a
  exponential := fun _ _ _ => 0
  choice := fun _ _ _ => 0

/-- The `config['location']` record every simulator is constructed from. -/
structure LocationConfig where
  center_lat : ℚ
  center_lng : ℚ
  area_km2 : ℚ
  elevation_avg : ℚ

/-- The test configuration of the example blocks (`Suwałki`). -/
def suwalki_location : LocationConfig :=
  { center_lat := 54.10, center_lng := 22.95, area_km2 := 5.0, elevation_avg := 163.0 }

namespace FloodSim

/-! ## FloodSimulator (`src/modules/floodsim_module.py`)

Calibration constants fixed in `FloodSimulator.__init__`. -/

def urban_coverage : ℚ := 0.25

def drainage_capacity : ℚ := 40

def infiltration_rate : ℚ := 8

def runoff_coefficient : ℚ := 0.75

def manning_n : ℚ := 0.035

def min_flow_depth : ℚ := 0.01

def max_flow_velocity : ℚ := 5.0

/-- `FloodSimulator.calculate_effective_rainfall`: returns
`(effective_rainfall, excess_rainfall, total_excess_mm)`. -/
def calculate_effective_rainfall (rainfall_mm_h duration_h : ℚ) : ℚ × ℚ × ℚ :=
  let effective_rainfall := max 0 (rainfall_mm_h - infiltration_rate)
  let excess_rainfall := max 0 (effective_rainfall - drainage_capacity)
  let total_excess_mm := excess_rainfall * duration_h * runoff_coefficient
  (effective_rainfall, excess_rainfall, total_excess_mm)

/-- `FloodSimulator.calculate_flood_depths`: returns
`(max_depth, flooded_area_pct)`. -/
def calculate_flood_depths (total_excess_mm : ℚ) : ℚ × ℚ :=
  if total_excess_mm ≤ 0 then (0, 0)
  else
    let depth_factor : ℚ := 0.8
    let max_depth := min (total_excess_mm / 100 * depth_factor) 3.0
    let area_factor : ℚ := 1.2
    let flooded_area_pct := min 100 (total_excess_mm * area_factor)
    (max_depth, flooded_area_pct)

/-- The ordered risk bands of `FloodSimulator.assess_flood_risk`
(MINIMAL, LOW, MODERATE, HIGH, CRITICAL in the source language). -/
def risk_levels : List String :=
  ["MINIMALNE", "NISKIE", "UMIARKOWANE", "WYSOKIE", "KRYTYCZNE"]

/-- `FloodSimulator.assess_flood_risk`. -/
def assess_flood_risk (max_depth : ℚ) : String :=
  if max_depth < 0.05 then risk_levels.getD 0 ""
  else if max_depth < 0.15 then risk_levels.getD 1 ""
  else if max_depth < 0.40 then risk_levels.getD 2 ""
  else if max_depth < 0.80 then risk_levels.getD 3 ""
  else risk_levels.getD 4 ""

/-- Result record of `FloodSimulator.calculate_building_impact`. -/
structure BuildingImpact where
  total : ℤ
  at_risk : ℤ
  affected_population : ℤ

/-- `FloodSimulator.calculate_building_impact`. -/
def calculate_building_impact (loc : LocationConfig) (flooded_area_km2 : ℚ) :
    BuildingImpact :=
  let buildings_per_km2 : ℚ := 350
  let occupancy_rate : ℚ := 0.6
  let residents_per_building : ℤ := 3
  let total_buildings := pyTrunc (loc.area_km2 * buildings_per_km2 * urban_coverage)
  let buildings_at_risk :=
    min (pyTrunc (flooded_area_km2 * buildings_per_km2 * occupancy_rate)) total_buildings
  { total := total_buildings
    at_risk := buildings_at_risk
    affected_population := buildings_at_risk * residents_per_building }

/-- `FloodSimulator.calculate_economic_damage` (PLN, truncated to `int`). -/
def calculate_economic_damage (buildings_at_risk : ℤ) (total_volume_m3 : ℚ) : ℤ :=
  let damage_per_building : ℚ := 50000
  let infrastructure_damage_rate : ℚ := 10
  pyTrunc ((buildings_at_risk : ℚ) * damage_per_building
    + total_volume_m3 * infrastructure_damage_rate)

/-- One flood-zone point of `FloodSimulator.generate_flood_zones`. -/
structure FloodZone where
  lat : ℚ
  lng : ℚ
  depth_m : ℚ
  elevation_m : ℚ
  flow_velocity : ℚ
  zone_id : ℕ
  surface_type : String

/-- The reseed of `generate_flood_zones`:
`seed_value = abs(hash(scenario_name)) % (2**31)`. -/
def seed_value (pyHash : String → ℤ) (scenario_name : String) : ℕ :=
  (pyHash scenario_name).natAbs % 2 ^ 31

/-- `num_zones = max(5, min(50, int(flooded_area_pct * 0.8)))`. -/
def num_zones (flooded_area_pct : ℚ) : ℕ :=
  (max 5 (min 50 (pyTrunc (flooded_area_pct * 0.8)))).toNat

/-- One iteration of the `generate_flood_zones` loop.  The accumulator carries
the draw counter and the zones produced so far; the draws appear in source
order (latitude, longitude, conditionally the exponential depth, the terrain
elevation, the surface type). -/
def flood_zone_step (E : Entropy) (rsqrt : ℚ → ℚ) (loc : LocationConfig)
    (max_depth : ℚ) (seed : ℕ) : ℕ × List FloodZone → ℕ → ℕ × List FloodZone :=
  fun st i =>
    let c := st.1
    let lat := loc.center_lat + E.normal seed c 0 0.008
    let lng := loc.center_lng + E.normal seed (c + 1) 0 0.012
    let dc :=
      if 0 < max_depth then
        (min (max 0.02 (E.exponential seed (c + 2) (max_depth * 0.6))) max_depth, c + 3)
      else ((0.02 : ℚ), c + 2)
    let depth := dc.1
    let c1 := dc.2
    let flow_velocity := if 0 < depth then min (rsqrt depth * 1.5) max_flow_velocity else 0
    let elevation := loc.elevation_avg + E.normal seed c1 0 2
    let surface_type :=
      match E.choice seed (c1 + 1) 4 with
      | 0 => "road"
      | 1 => "sidewalk"
      | 2 => "green"
      | _ => "plaza"
    (c1 + 2,
     st.2 ++ [{ lat := pyRound lat 6, lng := pyRound lng 6, depth_m := pyRound depth 3,
                elevation_m := pyRound elevation 1,
                flow_velocity := pyRound flow_velocity 2,
                zone_id := i + 1, surface_type := surface_type }])

/-- `FloodSimulator.generate_flood_zones`.  The incoming generator state `_g`
is overwritten by `np.random.seed(seed_value)` before any draw is made, which
is why the result never depends on it. -/
def generate_flood_zones (E : Entropy) (pyHash : String → ℤ) (rsqrt : ℚ → ℚ)
    (loc : LocationConfig) (scenario_name : String) (max_depth flooded_area_pct : ℚ)
    (_g : RngState) : List FloodZone × RngState :=
  let seed := seed_value pyHash scenario_name
  let res := (List.range (num_zones flooded_area_pct)).foldl
    (flood_zone_step E rsqrt loc max_depth seed) (0, [])
  (res.2, (seed, res.1))

/-- The `parameters` block of the flood result. -/
structure FloodParameters where
  rainfall_mm_h : ℚ
  duration_h : ℚ
  total_rainfall_mm : ℚ
  effective_rainfall_mm : ℚ
  excess_rainfall_mm : ℚ
  runoff_coefficient : ℚ

/-- The `hydraulic_conditions` block of the flood result. -/
structure HydraulicConditions where
  drainage_capacity_mm_h : ℚ
  infiltration_rate_mm_h : ℚ
  manning_roughness : ℚ
  urban_coverage_percent : ℚ

/-- The `metrics` block of the flood result. -/
structure FloodMetrics where
  max_depth_m : ℚ
  mean_depth_m : ℚ
  flooded_area_km2 : ℚ
  flooded_area_percent : ℚ
  total_volume_m3 : ℚ
  peak_flow_velocity_ms : ℚ
  risk_level : String
  risk_score : ℕ

/-- The `impact_assessment` block of the flood result. -/
structure ImpactAssessment where
  buildings_total : ℤ
  buildings_at_risk : ℤ
  affected_population : ℤ
  economic_damage_pln : ℤ
  economic_damage_eur : ℚ
  evacuation_needed : Bool

/-- The `visualization` block of the flood result. -/
structure FloodMapView where
  center_lat : ℚ
  center_lng : ℚ
  zoom_level : ℕ
  color_scale : String
  max_marker_size : ℕ

/-- The complete result of `FloodSimulator.simulate_scenario`. -/
structure FloodResult where
  scenario_name : String
  module : String
  model_version : String
  computation_time : String
  parameters : FloodParameters
  hydraulic_conditions : HydraulicConditions
  metrics : FloodMetrics
  impact_assessment : ImpactAssessment
  flood_zones : Option (List FloodZone)
  visualization : Option FloodMapView

/-- `FloodSimulator.simulate_scenario`.  `now` stands for the
`datetime.now().isoformat()` timestamp, the only time-dependent output. -/
def simulate_scenario (E : Entropy) (pyHash : String → ℤ) (rsqrt : ℚ → ℚ)
    (loc : LocationConfig) (rainfall_mm_h duration_h : ℚ) (scenario_name : String)
    (detailed_output : Bool) (now : String) (g : RngState) : FloodResult × RngState :=
  let er := calculate_effective_rainfall rainfall_mm_h duration_h
  let effective_rainfall := er.1
  let excess_rainfall := er.2.1
  let total_excess_mm := er.2.2
  let fd := calculate_flood_depths total_excess_mm
  let max_depth := fd.1
  let flooded_area_pct := fd.2
  let flooded_area_km2 := flooded_area_pct / 100 * loc.area_km2
  let risk_level := assess_flood_risk max_depth
  let building_impact := calculate_building_impact loc flooded_area_km2
  let total_volume_m3 := flooded_area_km2 * 1000000 * (max_depth * 0.4)
  let economic_damage := calculate_economic_damage building_impact.at_risk total_volume_m3
  let fz := if detailed_output
    then generate_flood_zones E pyHash rsqrt loc scenario_name max_depth flooded_area_pct g
    else ([], g)
  ({ scenario_name := scenario_name
     module := "FloodSim"
     model_version := "FloodSim_v2.1_Suwalki"
     computation_time := now
     parameters :=
       { rainfall_mm_h := rainfall_mm_h
         duration_h := duration_h
         total_rainfall_mm := rainfall_mm_h * duration_h
         effective_rainfall_mm := effective_rainfall * duration_h
         excess_rainfall_mm := excess_rainfall * duration_h
         runoff_coefficient := runoff_coefficient }
     hydraulic_conditions :=
       { drainage_capacity_mm_h := drainage_capacity
         infiltration_rate_mm_h := infiltration_rate
         manning_roughness := manning_n
         urban_coverage_percent := urban_coverage * 100 }
     metrics :=
       { max_depth_m := pyRound max_depth 3
         mean_depth_m := pyRound (max_depth * 0.4) 3
         flooded_area_km2 := pyRound flooded_area_km2 4
         flooded_area_percent := pyRound flooded_area_pct 1
         total_volume_m3 := pyRound total_volume_m3 0
         peak_flow_velocity_ms := pyRound (if 0 < max_depth then rsqrt max_depth * 1.5 else 0) 2
         risk_level := risk_level
         risk_score := (risk_levels.take (risk_levels.indexOf risk_level + 1)).length }
     impact_assessment :=
       { buildings_total := building_impact.total
         buildings_at_risk := building_impact.at_risk
         affected_population := building_impact.affected_population
         economic_damage_pln := economic_damage
         economic_damage_eur := pyRound ((economic_damage : ℚ) / 4.5) 0
         evacuation_needed := decide (0.5 < max_depth) }
     flood_zones := if detailed_output then some fz.1 else none
     visualization := if detailed_output then
         some { center_lat := loc.center_lat, center_lng := loc.center_lng,
                zoom_level := 14, color_scale := "Blues", max_marker_size := 20 }
       else none },
   fz.2)

end FloodSim

namespace WindSim

/-! ## WindSimulator (`src/modules/windsim_module.py`)

Urban and CFD constants fixed in `WindSimulator.__init__`. -/

def building_density : ℚ := 0.25

def average_building_height : ℚ := 18

def surface_roughness : ℚ := 0.3

def air_density : ℚ := 1.225

def reference_height : ℚ := 10.0

def pedestrian_height : ℚ := 1.5

def von_karman_constant : ℚ := 0.41

def tunnel_amplification : ℚ := 0.8

def wake_reduction : ℚ := 0.3

def green_area_reduction : ℚ := 0.4

/-- `WindSimulator.calculate_wind_profile`: logarithmic ABL profile, with the
guard `height ≤ z0 → height = z0 + 0.1` and the final floor at `0`.  `rlog`
stands for `np.log`; the default arguments `z_ref = reference_height` and
`z0 = surface_roughness` are supplied at the call sites. -/
def calculate_wind_profile (rlog : ℚ → ℚ) (height u_ref z_ref z0 : ℚ) : ℚ :=
  let h := if height ≤ z0 then z0 + 0.1 else height
  max 0 (u_ref * rlog ((h + z0) / z0) / rlog ((z_ref + z0) / z0))

/-- The main street axes of `_calculate_directional_factor`. -/
def main_street_directions : List ℚ := [0, 90, 180, 270]

/-- `WindSimulator._calculate_directional_factor`: the minimum of
`abs(direction - street_dir)` over the four axes (no modular reduction in the
source), mapped to the bands `≤ 15 → 1.15`, `≤ 30 → 1.05`, else `0.9`. -/
def _calculate_directional_factor (direction : ℚ) : ℚ :=
  let min_angle_diff :=
    min (min |direction - 0| |direction - 90|) (min |direction - 180| |direction - 270|)
  if min_angle_diff ≤ 15 then 1.15
  else if min_angle_diff ≤ 30 then 1.05
  else 0.9

/-- The dictionary returned by `WindSimulator.calculate_urban_effects`. -/
structure UrbanEffects where
  max_tunnel_speed : ℚ
  min_wake_speed : ℚ
  avg_urban_speed : ℚ
  pedestrian_speed : ℚ
  directional_factor : ℚ
  tunnel_factor : ℚ
  wake_reduction_pct : ℚ

/-- `WindSimulator.calculate_urban_effects`. -/
def calculate_urban_effects (rlog : ℚ → ℚ) (wind_speed_ref direction : ℚ) :
    UrbanEffects :=
  let tunnel_factor := 1.0 + building_density * tunnel_amplification
  let max_tunnel_speed := wind_speed_ref * tunnel_factor
  let min_wake_speed := wind_speed_ref * (1 - wake_reduction)
  let urban_reduction_factor := 1 - building_density * 0.4
  let avg_urban_speed := wind_speed_ref * urban_reduction_factor
  let pedestrian_speed :=
    calculate_wind_profile rlog pedestrian_height wind_speed_ref reference_height
      surface_roughness
  let directional_factor := _calculate_directional_factor direction
  { max_tunnel_speed := max_tunnel_speed * directional_factor
    min_wake_speed := min_wake_speed * directional_factor
    avg_urban_speed := avg_urban_speed * directional_factor
    pedestrian_speed := pedestrian_speed * directional_factor
    directional_factor := directional_factor
    tunnel_factor := tunnel_factor
    wake_reduction_pct := wake_reduction * 100 }

/-- `WindSimulator.assess_pedestrian_comfort` (Lawson bands):
`(comfort_level, score, description)`. -/
def assess_pedestrian_comfort (wind_speed : ℚ) : String × ℕ × String :=
  if wind_speed < 4 then
    ("KOMFORTOWO", 1, "Warunki idealne do przebywania na zewnątrz")
  else if wind_speed < 6 then
    ("AKCEPTOWALNE", 2, "Odpowiednie do spacerów i krótkiego przebywania")
  else if wind_speed < 8 then
    ("NIEWŁAŚCIWE", 3, "Tylko do szybkiego przejścia, dyskomfort")
  else if wind_speed < 12 then
    ("NIEBEZPIECZNE", 4, "Trudności w chodzeniu, ryzyko upadku")
  else
    ("EKSTREMALNIE NIEBEZPIECZNE", 5, "Niemożliwe przebywanie na zewnątrz")

/-- The dictionary returned by `WindSimulator.calculate_wind_pressure`. -/
structure WindPressures where
  dynamic_pressure_pa : ℚ
  windward_pressure_pa : ℚ
  leeward_pressure_pa : ℚ
  side_pressure_pa : ℚ
  roof_windward_pa : ℚ
  roof_leeward_pa : ℚ
  pressure_difference_pa : ℚ

/-- `WindSimulator.calculate_wind_pressure`. -/
def calculate_wind_pressure (wind_speed : ℚ) : WindPressures :=
  let dynamic_pressure := 0.5 * air_density * wind_speed ^ 2
  let cp_windward : ℚ := 0.8
  let cp_leeward : ℚ := -0.5
  let cp_side : ℚ := -0.7
  let cp_roof_windward : ℚ := -0.3
  let cp_roof_leeward : ℚ := -0.6
  { dynamic_pressure_pa := dynamic_pressure
    windward_pressure_pa := dynamic_pressure * cp_windward
    leeward_pressure_pa := dynamic_pressure * cp_leeward
    side_pressure_pa := dynamic_pressure * cp_side
    roof_windward_pa := dynamic_pressure * cp_roof_windward
    roof_leeward_pa := dynamic_pressure * cp_roof_leeward
    pressure_difference_pa := dynamic_pressure * (cp_windward - cp_leeward) }

/-- One point of `WindSimulator.generate_wind_field`. -/
structure WindFieldPoint where
  lat : ℚ
  lng : ℚ
  speed : ℚ
  direction : ℚ
  vx : ℚ
  vy : ℚ
  height_agl : ℚ
  turbulence_intensity : ℚ
  environment_type : String
  gust_factor : ℚ

/-- The reseed of `generate_wind_field`:
`seed_value = abs(int(direction) + int(wind_speed_ref * 10)) % (2**31)` — a
function of the wind inputs only, never of the scenario name. -/
def seed_value (wind_speed_ref direction : ℚ) : ℕ :=
  (pyTrunc direction + pyTrunc (wind_speed_ref * 10)).natAbs % 2 ^ 31

/-- `num_points = min(100, max(20, int(wind_speed_ref * 5)))`. -/
def num_points (wind_speed_ref : ℚ) : ℕ :=
  (min 100 (max 20 (pyTrunc (wind_speed_ref * 5)))).toNat

/-- One iteration of the `generate_wind_field` loop.  Each iteration makes
exactly six draws, in source order (latitude, longitude, spatial variation,
micro-environment, direction deviation, height above ground), so iteration
`i` consumes the draw counters `6*i, …, 6*i+5`.  `radians`, `rcos`, `rsin`
stand for `np.radians`, `np.cos`, `np.sin`. -/
def wind_field_point (E : Entropy) (radians rcos rsin : ℚ → ℚ)
    (loc : LocationConfig) (direction : ℚ) (urban_effects : UrbanEffects)
    (seed : ℕ) (i : ℕ) : WindFieldPoint :=
  let c := 6 * i
  let lat := loc.center_lat + E.normal seed c 0 0.008
  let lng := loc.center_lng + E.normal seed (c + 1) 0 0.012
  let spatial_variation := E.uniform seed (c + 2) 0.6 1.4
  let environment_type :=
    match E.choice seed (c + 3) 5 with
    | 0 => "open"
    | 1 => "tunnel"
    | 2 => "wake"
    | 3 => "green"
    | _ => "intersection"
  let st :=
    if environment_type = "tunnel" then
      (urban_effects.max_tunnel_speed * spatial_variation, (0.25 : ℚ))
    else if environment_type = "wake" then
      (urban_effects.min_wake_speed * spatial_variation, 0.15)
    else if environment_type = "green" then
      (urban_effects.avg_urban_speed * (1 - green_area_reduction) * spatial_variation, 0.1)
    else if environment_type = "intersection" then
      (urban_effects.avg_urban_speed * 1.1 * spatial_variation, 0.2)
    else
      (urban_effects.avg_urban_speed * spatial_variation, 0.12)
  let local_speed := st.1
  let turbulence := st.2
  let dd := E.normal seed (c + 4) 0 25
  let direction_deviation :=
    if environment_type = "tunnel" ∨ environment_type = "intersection" then dd * 1.5 else dd
  let local_direction := pyMod (direction + direction_deviation) 360
  let wind_angle_rad := radians (270 - local_direction)
  let vx := local_speed * rcos wind_angle_rad
  let vy := local_speed * rsin wind_angle_rad
  let height_agl := E.uniform seed (c + 5) 1.0 20.0
  { lat := pyRound lat 6
    lng := pyRound lng 6
    speed := pyRound local_speed 2
    direction := pyRound local_direction 1
    vx := pyRound vx 2
    vy := pyRound vy 2
    height_agl := pyRound height_agl 1
    turbulence_intensity := pyRound turbulence 3
    environment_type := environment_type
    gust_factor := pyRound (1 + turbulence * 0.5) 2 }

/-- `WindSimulator.generate_wind_field`.  The incoming generator state `_g`
is overwritten by `np.random.seed(seed_value)` before any draw is made; the
`scenario_name` argument is never used by the source. -/
def generate_wind_field (E : Entropy) (radians rcos rsin : ℚ → ℚ)
    (loc : LocationConfig) (scenario_name : String) (wind_speed_ref direction : ℚ)
    (urban_effects : UrbanEffects) (_g : RngState) : List WindFieldPoint × RngState :=
  ((List.range (num_points wind_speed_ref)).map
     (wind_field_point E radians rcos rsin loc direction urban_effects
       (seed_value wind_speed_ref direction)),
   (seed_value wind_speed_ref direction, 6 * num_points wind_speed_ref))

/-- The comfort-zone distribution table of
`WindSimulator.calculate_comfort_zones_distribution` (the Polish dictionary
keys are mapped to ASCII field names). -/
structure ComfortZones where
  komfortowo : ℚ
  akceptowalne : ℚ
  niewlasciwe : ℚ
  niebezpieczne : ℚ

/-- `WindSimulator.calculate_comfort_zones_distribution`. -/
def calculate_comfort_zones_distribution (urban_effects : UrbanEffects) : ComfortZones :=
  let avg_speed := urban_effects.avg_urban_speed
  if avg_speed < 3 then
    { komfortowo := 90, akceptowalne := 8, niewlasciwe := 2, niebezpieczne := 0 }
  else if avg_speed < 5 then
    { komfortowo := 70, akceptowalne := 20, niewlasciwe := 8, niebezpieczne := 2 }
  else if avg_speed < 8 then
    { komfortowo := 40, akceptowalne := 35, niewlasciwe := 20, niebezpieczne := 5 }
  else if avg_speed < 12 then
    { komfortowo := 15, akceptowalne := 25, niewlasciwe := 40, niebezpieczne := 20 }
  else
    { komfortowo := 5, akceptowalne := 10, niewlasciwe := 30, niebezpieczne := 55 }

/-- The `parameters` block of the wind result. -/
structure WindParameters where
  wind_speed_ref : ℚ
  wind_direction : ℚ
  reference_height : ℚ
  surface_roughness : ℚ
  air_density : ℚ

/-- The `urban_characteristics` block of the wind result. -/
structure UrbanCharacteristics where
  building_density_percent : ℚ
  average_building_height : ℚ
  tunnel_amplification : ℚ
  wake_reduction : ℚ
  directional_factor : ℚ

/-- The `wind_field_analysis` block of the wind result. -/
structure WindFieldAnalysis where
  max_speed : ℚ
  min_speed : ℚ
  avg_urban_speed : ℚ
  pedestrian_speed : ℚ
  speed_variation_factor : ℚ

/-- The `comfort_assessment` block of the wind result. -/
structure WindComfortAssessment where
  pedestrian_comfort_level : String
  comfort_score : ℕ
  comfort_description : String
  comfort_zones_percent : ℚ
  comfort_distribution : ComfortZones

/-- The `structural_loads` block of the wind result. -/
structure StructuralLoads where
  dynamic_pressure_pa : ℚ
  windward_pressure_pa : ℚ
  leeward_pressure_pa : ℚ
  pressure_difference_pa : ℚ
  design_wind_load_knm2 : ℚ

/-- The `visualization` block of the wind result. -/
structure WindMapView where
  center_lat : ℚ
  center_lng : ℚ
  zoom_level : ℕ
  vector_scale : ℕ
  color_scale : String
  particle_count : ℕ

/-- The complete result of `WindSimulator.simulate_scenario`. -/
structure WindResult where
  scenario_name : String
  module : String
  model_version : String
  computation_time : String
  parameters : WindParameters
  urban_characteristics : UrbanCharacteristics
  wind_field_analysis : WindFieldAnalysis
  comfort_assessment : WindComfortAssessment
  structural_loads : StructuralLoads
  wind_field : Option (List WindFieldPoint)
  visualization : Option WindMapView

/-- `WindSimulator.simulate_scenario`.  `now` stands for the
`datetime.now().isoformat()` timestamp, the only time-dependent output. -/
def simulate_scenario (E : Entropy) (rlog radians rcos rsin : ℚ → ℚ)
    (loc : LocationConfig) (wind_speed_ref direction : ℚ) (scenario_name : String)
    (detailed_output : Bool) (now : String) (g : RngState) : WindResult × RngState :=
  let urban_effects := calculate_urban_effects rlog wind_speed_ref direction
  let pc := assess_pedestrian_comfort urban_effects.pedestrian_speed
  let wind_pressures := calculate_wind_pressure wind_speed_ref
  let comfort_zones := calculate_comfort_zones_distribution urban_effects
  let comfort_zones_percent := comfort_zones.komfortowo + comfort_zones.akceptowalne
  let wf := if detailed_output
    then generate_wind_field E radians rcos rsin loc scenario_name wind_speed_ref direction
      urban_effects g
    else ([], g)
  ({ scenario_name := scenario_name
     module := "WindSim"
     model_version := "WindSim_v1.9_CFD"
     computation_time := now
     parameters :=
       { wind_speed_ref := wind_speed_ref
         wind_direction := direction
         reference_height := reference_height
         surface_roughness := surface_roughness
         air_density := air_density }
     urban_characteristics :=
       { building_density_percent := building_density * 100
         average_building_height := average_building_height
         tunnel_amplification := tunnel_amplification
         wake_reduction := wake_reduction
         directional_factor := urban_effects.directional_factor }
     wind_field_analysis :=
       { max_speed := pyRound urban_effects.max_tunnel_speed 2
         min_speed := pyRound urban_effects.min_wake_speed 2
         avg_urban_speed := pyRound urban_effects.avg_urban_speed 2
         pedestrian_speed := pyRound urban_effects.pedestrian_speed 2
         speed_variation_factor :=
           pyRound (urban_effects.max_tunnel_speed / urban_effects.min_wake_speed) 2 }
     comfort_assessment :=
       { pedestrian_comfort_level := pc.1
         comfort_score := pc.2.1
         comfort_description := pc.2.2
         comfort_zones_percent := pyRound comfort_zones_percent 1
         comfort_distribution := comfort_zones }
     structural_loads :=
       { dynamic_pressure_pa := pyRound wind_pressures.dynamic_pressure_pa 0
         windward_pressure_pa := pyRound wind_pressures.windward_pressure_pa 0
         leeward_pressure_pa := pyRound wind_pressures.leeward_pressure_pa 0
         pressure_difference_pa := pyRound wind_pressures.pressure_difference_pa 0
         design_wind_load_knm2 := pyRound (wind_pressures.dynamic_pressure_pa / 1000) 2 }
     wind_field := if detailed_output then some wf.1 else none
     visualization := if detailed_output then
         some { center_lat := loc.center_lat, center_lng := loc.center_lng,
                zoom_level := 14, vector_scale := 10, color_scale := "Viridis",
                particle_count := wf.1.length }
       else none },
   wf.2)

end WindSim

namespace ThermalSim

/-! ## ThermalComfortSimulator (`src/modules/thermalsim_module.py`)

Physical and physiological constants fixed in
`ThermalComfortSimulator.__init__`. -/

def human_body_surface_area : ℚ := 1.8

def skin_emissivity : ℚ := 0.97

def evaporation_heat : ℚ := 2430000

def stefan_boltzmann : ℚ := 5.67e-8

def air_specific_heat : ℚ := 1005

def air_density_stp : ℚ := 1.225

def urban_heat_island_max : ℚ := 4.0

def green_cooling_effect : ℚ := -2.5

def water_cooling_effect : ℚ := -1.5

/-- The loop state of the clothing-surface-temperature iteration inside
`calculate_pmv_detailed`: the current `tcl`, and the Python locals `hc` and
`tcl_k`, which hold no value until the loop first assigns them (`none`
models "not yet assigned"; reading it raises `UnboundLocalError`). -/
abbrev PmvIterState := ℚ × Option ℚ × Option ℚ

/-- One pass of the `for _ in range(10)` loop of `calculate_pmv_detailed`, in
source order: `hc` is computed from the wind branch, then `hr` reads `tcl_k`
— the value left by the *previous* pass, which on the very first pass has
never been assigned — then `tcl_k` and the new `tcl` are assigned.  `rsqrt`
stands for `np.sqrt` and `rpow25` for `(·) ** 0.25`. -/
def pmv_iteration_step (rsqrt rpow25 : ℚ → ℚ) (ta tr_k ta_k va icl fcl m w : ℚ) :
    PmvIterState → Except String PmvIterState := fun s =>
  let tcl := s.1
  let hc0 := if va < 0.1 then 2.38 * rpow25 |tcl - ta| else 12.1 * rsqrt va
  let hc := max hc0 (12.1 * rsqrt va)
  match s.2.2 with
  | none => Except.error "UnboundLocalError: tcl_k referenced before assignment"
  | some tcl_k_prev =>
    let hr := 4 * stefan_boltzmann * fcl * ((tcl_k_prev + tr_k) / 2) ^ 3
    let tcl_k := tcl + 273.15
    let tcl_new :=
      (icl * fcl * (m - w) + fcl * hr * tr_k + fcl * hc * ta + ta_k)
        / (1 + icl * fcl * (hr + hc))
    Except.ok (tcl_new - 273.15, some hc, some tcl_k)

/-- `ThermalComfortSimulator.calculate_pmv_detailed` (full Fanger balance,
ISO 7730).  `rexp` stands for `np.exp`.  The optional `pa` argument and the
Magnus saturation formula, the metabolic and clothing conversions, the
ten-pass surface-temperature iteration, the six heat-loss terms and the final
clamp to `[-3, 3]` follow the source line by line; reads of not-yet-assigned
locals surface as `Except.error`. -/
def calculate_pmv_detailed (rexp rsqrt rpow25 : ℚ → ℚ) (ta tr va rh : ℚ)
    (met : ℚ := 1.2) (clo : ℚ := 0.7) (pa0 : Option ℚ := none) : Except String ℚ :=
  let ta_k := ta + 273.15
  let tr_k := tr + 273.15
  let pa := match pa0 with
    | none => rh / 100 * (610.78 * rexp (17.27 * ta / (ta + 237.3)))
    | some p => p
  let m := met * 58.15
  let w : ℚ := 0
  let icl := clo * 0.155
  let fcl := if icl ≤ 0.078 then 1.0 + 1.290 * icl else 1.05 + 0.645 * icl
  let loop := (List.range 10).foldl
    (fun acc _ => acc.bind (pmv_iteration_step rsqrt rpow25 ta tr_k ta_k va icl fcl m w))
    (Except.ok ((ta, none, none) : PmvIterState))
  loop.bind fun s =>
    let tcl := s.1
    let tcl_k := tcl + 273.15
    match s.2.1 with
    | none => Except.error "UnboundLocalError: hc referenced before assignment"
    | some hc =>
      let hl1 := 3.05 * 0.001 * (5733 - 6.99 * (m - w) - pa)
      let hl2 := if 58.15 < m - w then 0.42 * ((m - w) - 58.15) else 0
      let hl3 := 1.7 * 0.00001 * m * (5867 - pa)
      let hl4 := 0.0014 * m * (34 - ta)
      let hl5 := 3.96 * fcl * (tcl_k ^ 4 - tr_k ^ 4)
      let hl6 := fcl * hc * (tcl - ta)
      let thermal_load := m - w - hl1 - hl2 - hl3 - hl4 - hl5 - hl6
      let pmv := (0.303 * rexp (-0.036 * m) + 0.028) * thermal_load
      Except.ok (max (-3.0) (min 3.0 pmv))

/-- `ThermalComfortSimulator.calculate_ppd_from_pmv`: the Fanger PPD formula
with the `[5, 100]` clamp (`max(5.0, min(100.0, ppd))`). -/
def calculate_ppd_from_pmv (rexp : ℚ → ℚ) (pmv : ℚ) : ℚ :=
  let ppd := 100 - 95 * rexp (-0.03353 * pmv ^ 4 - 0.2179 * pmv ^ 2)
  max 5.0 (min 100.0 ppd)

/-- What `generate_comfort_points` reads from one entry of `zones_results`:
the zone comfort indices, the mean radiant temperature and surface type of
the microclimate block, and the zone area share. -/
structure ZoneSummary where
  area_percent : ℚ
  pmv : ℚ
  utci : ℚ
  pet : ℚ
  mean_radiant_temp : ℚ
  surface_type : String

/-- `np.var`: population variance (mean of squared deviations). -/
def npVar (xs : List ℚ) : ℚ :=
  let n : ℚ := xs.length
  let mu := xs.sum / n
  (xs.map fun x => (x - mu) ^ 2).sum / n

/-- One comfort-map point of `generate_comfort_points`. -/
structure ComfortPoint where
  lat : ℚ
  lng : ℚ
  pmv : ℚ
  ppd : ℚ
  utci : ℚ
  pet : ℚ
  zone_type : String
  surface_temp : ℚ
  comfort_score : ℚ
  microenvironment : String

/-- The reseed of `generate_comfort_points`:
`seed_value = abs(hash(scenario_name) + int(overall_comfort * 1000)) % (2**31)`. -/
def seed_value (pyHash : String → ℤ) (scenario_name : String)
    (overall_comfort : ℚ) : ℕ :=
  (pyHash scenario_name + pyTrunc (overall_comfort * 1000)).natAbs % 2 ^ 31

/-- `num_points = min(80, max(30, int(comfort_variance * 50 + 40)))` where
`comfort_variance` is the population variance of the per-zone PMV values. -/
def num_points (zones_results : List (String × ZoneSummary)) : ℕ :=
  (min 80 (max 30 (pyTrunc (npVar (zones_results.map fun z => z.2.pmv) * 50 + 40)))).toNat

/-- One iteration of the `generate_comfort_points` loop.  Each iteration
makes exactly seven draws, in source order (latitude, longitude, the
area-weighted zone choice, then the normal perturbations of PMV, UTCI, PET
and the surface temperature), so iteration `i` consumes the draw counters
`7*i, …, 7*i+6`.  The area-share weights of the categorical draw only shape
its distribution; the chosen index is `E.choice`. -/
def comfort_point (E : Entropy) (rexp : ℚ → ℚ) (loc : LocationConfig)
    (zones_results : List (String × ZoneSummary)) (seed : ℕ) (i : ℕ) : ComfortPoint :=
  let c := 7 * i
  let lat := loc.center_lat + E.normal seed c 0 0.008
  let lng := loc.center_lng + E.normal seed (c + 1) 0 0.012
  let zc := zones_results.getD (E.choice seed (c + 2) zones_results.length)
    ("", { area_percent := 0, pmv := 0, utci := 0, pet := 0,
           mean_radiant_temp := 0, surface_type := "" })
  let zone_choice := zc.1
  let zone_data := zc.2
  let local_pmv := max (-3) (min 3 (zone_data.pmv + E.normal seed (c + 3) 0 0.3))
  let local_utci := zone_data.utci + E.normal seed (c + 4) 0 2.0
  let local_pet := zone_data.pet + E.normal seed (c + 5) 0 2.5
  let surface_temp := zone_data.mean_radiant_temp + E.normal seed (c + 6) 0 3
  { lat := pyRound lat 6
    lng := pyRound lng 6
    pmv := pyRound local_pmv 2
    ppd := pyRound (calculate_ppd_from_pmv rexp local_pmv) 1
    utci := pyRound local_utci 1
    pet := pyRound local_pet 1
    zone_type := zone_choice
    surface_temp := pyRound surface_temp 1
    comfort_score := max 1 (min 5 (pyRound (5 - |local_pmv|) 0))
    microenvironment := zone_data.surface_type }

/-- `ThermalComfortSimulator.generate_comfort_points`.  The incoming
generator state `_g` is overwritten by `np.random.seed(seed_value)` before
any draw is made, which is why the result never depends on it. -/
def generate_comfort_points (E : Entropy) (rexp : ℚ → ℚ) (pyHash : String → ℤ)
    (loc : LocationConfig) (scenario_name : String)
    (zones_results : List (String × ZoneSummary)) (overall_comfort : ℚ)
    (_g : RngState) : List ComfortPoint × RngState :=
  ((List.range (num_points zones_results)).map
     (comfort_point E rexp loc zones_results
       (seed_value pyHash scenario_name overall_comfort)),
   (seed_value pyHash scenario_name overall_comfort, 7 * num_points zones_results))

end ThermalSim

/-! ## Helper lemmas -/

theorem roundHalfEven_nonneg {x : ℚ} (hx : 0 ≤ x) : 0 ≤ roundHalfEven x := by
  have hf : (0 : ℤ) ≤ ⌊x⌋ := Int.floor_nonneg.mpr hx
  unfold roundHalfEven
  split_ifs <;> omega

theorem pyRound_nonneg {x : ℚ} (n : ℕ) (hx : 0 ≤ x) : 0 ≤ pyRound x n := by
  have h2 : (0 : ℤ) ≤ roundHalfEven (x * 10 ^ n) :=
    roundHalfEven_nonneg (mul_nonneg hx (by positivity))
  unfold pyRound
  exact div_nonneg (by exact_mod_cast h2) (by positivity)

theorem flood_total_excess_mono_rain {r1 r2 d : ℚ} (hr : r1 ≤ r2) (hd : 0 ≤ d) :
    (FloodSim.calculate_effective_rainfall r1 d).2.2
      ≤ (FloodSim.calculate_effective_rainfall r2 d).2.2 := by
  simp only [FloodSim.calculate_effective_rainfall]
  have h1 : max 0 (r1 - FloodSim.infiltration_rate)
      ≤ max 0 (r2 - FloodSim.infiltration_rate) :=
    max_le_max le_rfl (by linarith)
  have h2 : max 0 (max 0 (r1 - FloodSim.infiltration_rate) - FloodSim.drainage_capacity)
      ≤ max 0 (max 0 (r2 - FloodSim.infiltration_rate) - FloodSim.drainage_capacity) :=
    max_le_max le_rfl (by linarith)
  have h3 : (0 : ℚ) ≤ FloodSim.runoff_coefficient := by
    norm_num [FloodSim.runoff_coefficient]
  exact mul_le_mul_of_nonneg_right (mul_le_mul_of_nonneg_right h2 hd) h3

theorem flood_total_excess_mono_dur {r d1 d2 : ℚ} (hd : d1 ≤ d2) :
    (FloodSim.calculate_effective_rainfall r d1).2.2
      ≤ (FloodSim.calculate_effective_rainfall r d2).2.2 := by
  simp only [FloodSim.calculate_effective_rainfall]
  have hex : (0 : ℚ)
      ≤ max 0 (max 0 (r - FloodSim.infiltration_rate) - FloodSim.drainage_capacity) :=
    le_max_left 0 _
  have h3 : (0 : ℚ) ≤ FloodSim.runoff_coefficient := by
    norm_num [FloodSim.runoff_coefficient]
  exact mul_le_mul_of_nonneg_right (mul_le_mul_of_nonneg_left hd hex) h3

theorem flood_depths_mono {t1 t2 : ℚ} (h : t1 ≤ t2) :
    (FloodSim.calculate_flood_depths t1).1 ≤ (FloodSim.calculate_flood_depths t2).1 ∧
    (FloodSim.calculate_flood_depths t1).2 ≤ (FloodSim.calculate_flood_depths t2).2 := by
  simp only [FloodSim.calculate_flood_depths]
  rcases le_or_lt t1 0 with h1 | h1 <;> rcases le_or_lt t2 0 with h2 | h2
  · rw [if_pos h1, if_pos h2]
    exact ⟨le_rfl, le_rfl⟩
  · rw [if_pos h1, if_neg (not_le.mpr h2)]
    constructor
    · exact le_min (mul_nonneg (div_nonneg h2.le (by norm_num)) (by norm_num)) (by norm_num)
    · exact le_min (by norm_num) (mul_nonneg h2.le (by norm_num))
  · exact absurd (h.trans h2) (not_le.mpr h1)
  · rw [if_neg (not_le.mpr h1), if_neg (not_le.mpr h2)]
    exact ⟨min_le_min (by linarith) le_rfl, min_le_min le_rfl (by linarith)⟩

theorem directional_factor_pos (d : ℚ) : 0 < WindSim._calculate_directional_factor d := by
  simp only [WindSim._calculate_directional_factor]
  split_ifs <;> norm_num

theorem wind_profile_nonneg (rlog : ℚ → ℚ) (height u_ref z_ref z0 : ℚ) :
    0 ≤ WindSim.calculate_wind_profile rlog height u_ref z_ref z0 := by
  simp only [WindSim.calculate_wind_profile]
  exact le_max_left 0 _

theorem urban_effects_nonneg (rlog : ℚ → ℚ) {u : ℚ} (d : ℚ) (hu : 0 ≤ u) :
    0 ≤ (WindSim.calculate_urban_effects rlog u d).max_tunnel_speed ∧
    0 ≤ (WindSim.calculate_urban_effects rlog u d).min_wake_speed ∧
    0 ≤ (WindSim.calculate_urban_effects rlog u d).avg_urban_speed ∧
    0 ≤ (WindSim.calculate_urban_effects rlog u d).pedestrian_speed := by
  have hf := (directional_factor_pos d).le
  simp only [WindSim.calculate_urban_effects]
  refine ⟨?_, ?_, ?_, ?_⟩
  · exact mul_nonneg (mul_nonneg hu
      (by norm_num [WindSim.building_density, WindSim.tunnel_amplification])) hf
  · exact mul_nonneg (mul_nonneg hu (by norm_num [WindSim.wake_reduction])) hf
  · exact mul_nonneg (mul_nonneg hu (by norm_num [WindSim.building_density])) hf
  · exact mul_nonneg (wind_profile_nonneg rlog _ _ _ _) hf

theorem wind_field_point_speed_nonneg (E : Entropy) (radians rcos rsin : ℚ → ℚ)
    (loc : LocationConfig) (direction : ℚ) (ue : WindSim.UrbanEffects) (seed i : ℕ)
    (hE : E.UniformInRange)
    (hmax : 0 ≤ ue.max_tunnel_speed) (hmin : 0 ≤ ue.min_wake_speed)
    (havg : 0 ≤ ue.avg_urban_speed) :
    0 ≤ (WindSim.wind_field_point E radians rcos rsin loc direction ue seed i).speed := by
  have hsv : 0 ≤ E.uniform seed (6 * i + 2) 0.6 1.4 := by
    have h := (hE seed (6 * i + 2) 0.6 1.4 (by norm_num)).1
    linarith
  simp only [WindSim.wind_field_point]
  split_ifs with h1 h2 h3 h4
  · exact pyRound_nonneg 2 (mul_nonneg hmax hsv)
  · exact pyRound_nonneg 2 (mul_nonneg hmin hsv)
  · exact pyRound_nonneg 2 (mul_nonneg
      (mul_nonneg havg (by norm_num [WindSim.green_area_reduction])) hsv)
  · exact pyRound_nonneg 2 (mul_nonneg (mul_nonneg havg (by norm_num)) hsv)
  · exact pyRound_nonneg 2 (mul_nonneg havg hsv)

theorem exists_axis_le_iff (d c : ℚ) :
    (∃ a ∈ WindSim.main_street_directions, |d - a| ≤ c) ↔
      min (min |d - 0| |d - 90|) (min |d - 180| |d - 270|) ≤ c := by
  simp [WindSim.main_street_directions, min_le_iff]
  tauto

theorem forall_axis_lt_iff (d c : ℚ) :
    (∀ a ∈ WindSim.main_street_directions, c < |d - a|) ↔
      c < min (min |d - 0| |d - 90|) (min |d - 180| |d - 270|) := by
  simp [WindSim.main_street_directions, lt_min_iff]
  tauto

/-! ## Claim theorems -/

/-- C2: for the flood scenario with `rainfall_mm_h = 65` and `duration_h = 2`,
the simulation computes effective rainfall `57` mm/h, excess `17` mm/h, total
excess `25.5` mm (`17 × 2 × 0.75`), a max flood depth of exactly
`min(25.5/100 × 0.8, 3.0) = 0.204` m, and classifies the risk level as
`UMIARKOWANE` (MODERATE), the third of the five ordered bands, as the
`simulate_scenario` metrics confirm. -/
theorem c2_flood_moderate_example :
    FloodSim.calculate_effective_rainfall 65 2 = (57, 17, 25.5) ∧
    (25.5 : ℚ) = 17 * 2 * 0.75 ∧
    (FloodSim.calculate_flood_depths
      ((FloodSim.calculate_effective_rainfall 65 2).2.2)).1 = min (25.5 / 100 * 0.8) 3.0 ∧
    (FloodSim.calculate_flood_depths
      ((FloodSim.calculate_effective_rainfall 65 2).2.2)).1 = 0.204 ∧
    FloodSim.assess_flood_risk
      ((FloodSim.calculate_flood_depths
        ((FloodSim.calculate_effective_rainfall 65 2).2.2)).1) = "UMIARKOWANE" ∧
    FloodSim.risk_levels.getD 2 "" = "UMIARKOWANE" ∧
    ((FloodSim.simulate_scenario constantEntropy (fun _ => 0) (fun _ => 0) suwalki_location
      65 2 "Intensywny deszcz" false "" (0, 0)).1).metrics.max_depth_m = 0.204 ∧
    ((FloodSim.simulate_scenario constantEntropy (fun _ => 0) (fun _ => 0) suwalki_location
      65 2 "Intensywny deszcz" false "" (0, 0)).1).metrics.risk_level = "UMIARKOWANE" := by
  norm_num [FloodSim.simulate_scenario, FloodSim.calculate_effective_rainfall,
    FloodSim.calculate_flood_depths, FloodSim.assess_flood_risk, FloodSim.risk_levels,
    FloodSim.infiltration_rate, FloodSim.drainage_capacity, FloodSim.runoff_coefficient,
    pyRound, roundHalfEven, max_def, min_def]

/-- C3: for every rainfall intensity not exceeding the sum of the
infiltration rate (8 mm/h) and the drainage capacity (40 mm/h), and every
duration, the flood simulation yields `total_excess = 0`, `max_depth = 0`,
flooded area percent `0`, and risk level `MINIMALNE`, the lowest band. -/
theorem c3_zero_excess_boundary (rainfall duration : ℚ)
    (h : rainfall ≤ FloodSim.infiltration_rate + FloodSim.drainage_capacity) :
    (FloodSim.calculate_effective_rainfall rainfall duration).2.2 = 0 ∧
    FloodSim.calculate_flood_depths
      ((FloodSim.calculate_effective_rainfall rainfall duration).2.2) = (0, 0) ∧
    FloodSim.assess_flood_risk
      ((FloodSim.calculate_flood_depths
        ((FloodSim.calculate_effective_rainfall rainfall duration).2.2)).1) = "MINIMALNE" ∧
    FloodSim.risk_levels.getD 0 "" = "MINIMALNE" := by
  have hmax : max 0 (rainfall - FloodSim.infiltration_rate) - FloodSim.drainage_capacity ≤ 0 := by
    have h1 : max 0 (rainfall - FloodSim.infiltration_rate) ≤ FloodSim.drainage_capacity := by
      apply max_le
      · norm_num [FloodSim.drainage_capacity]
      · simp only [FloodSim.infiltration_rate, FloodSim.drainage_capacity] at h ⊢
        linarith
    linarith
  have htot : (FloodSim.calculate_effective_rainfall rainfall duration).2.2 = 0 := by
    simp only [FloodSim.calculate_effective_rainfall]
    rw [max_eq_left hmax, zero_mul, zero_mul]
  refine ⟨htot, ?_, ?_, rfl⟩
  · rw [htot]
    norm_num [FloodSim.calculate_flood_depths]
  · rw [htot]
    norm_num [FloodSim.calculate_flood_depths, FloodSim.assess_flood_risk,
      FloodSim.risk_levels]

/-- C3 witness: the spec example `rainfall = 5` mm/h, `duration = 1` h. -/
theorem c3_zero_excess_boundary_witness :
    ((5 : ℚ) ≤ FloodSim.infiltration_rate + FloodSim.drainage_capacity) ∧
    (FloodSim.calculate_effective_rainfall 5 1).2.2 = 0 ∧
    FloodSim.calculate_flood_depths ((FloodSim.calculate_effective_rainfall 5 1).2.2) = (0, 0) :=
  ⟨by norm_num [FloodSim.infiltration_rate, FloodSim.drainage_capacity],
   (c3_zero_excess_boundary 5 1
     (by norm_num [FloodSim.infiltration_rate, FloodSim.drainage_capacity])).1,
   (c3_zero_excess_boundary 5 1
     (by norm_num [FloodSim.infiltration_rate, FloodSim.drainage_capacity])).2.1⟩

/-- C4 counterexample: the claim quantifies over *every* duration, but for the
negative duration `-1` h (not rejected by the code) raising the rainfall from
50 to 60 mm/h strictly *decreases* `total_excess_mm` (from `-1.5` to `-9`). -/
theorem c4_negative_duration_counterexample :
    (FloodSim.calculate_effective_rainfall 60 (-1)).2.2
      < (FloodSim.calculate_effective_rainfall 50 (-1)).2.2 := by
  norm_num [FloodSim.calculate_effective_rainfall, FloodSim.infiltration_rate,
    FloodSim.drainage_capacity, FloodSim.runoff_coefficient, max_def]

/-- C4 (amended): for nonnegative durations, `total_excess`, `max_depth` and
`flooded_area_percent` are monotone non-decreasing in the rainfall intensity;
for every rainfall and arbitrary durations all three are monotone
non-decreasing in the duration; and zero rainfall yields zero excess for
every duration. -/
theorem c4_flood_monotonicity (r1 r2 d r d1 d2 dz : ℚ)
    (hr : r1 ≤ r2) (hd : 0 ≤ d) (hdd : d1 ≤ d2) :
    ((FloodSim.calculate_effective_rainfall r1 d).2.2
        ≤ (FloodSim.calculate_effective_rainfall r2 d).2.2 ∧
      (FloodSim.calculate_flood_depths ((FloodSim.calculate_effective_rainfall r1 d).2.2)).1
        ≤ (FloodSim.calculate_flood_depths ((FloodSim.calculate_effective_rainfall r2 d).2.2)).1 ∧
      (FloodSim.calculate_flood_depths ((FloodSim.calculate_effective_rainfall r1 d).2.2)).2
        ≤ (FloodSim.calculate_flood_depths ((FloodSim.calculate_effective_rainfall r2 d).2.2)).2) ∧
    ((FloodSim.calculate_effective_rainfall r d1).2.2
        ≤ (FloodSim.calculate_effective_rainfall r d2).2.2 ∧
      (FloodSim.calculate_flood_depths ((FloodSim.calculate_effective_rainfall r d1).2.2)).1
        ≤ (FloodSim.calculate_flood_depths ((FloodSim.calculate_effective_rainfall r d2).2.2)).1 ∧
      (FloodSim.calculate_flood_depths ((FloodSim.calculate_effective_rainfall r d1).2.2)).2
        ≤ (FloodSim.calculate_flood_depths ((FloodSim.calculate_effective_rainfall r d2).2.2)).2) ∧
    (FloodSim.calculate_effective_rainfall 0 dz).2.2 = 0 := by
  have m1 := flood_total_excess_mono_rain hr hd
  have m2 := flood_total_excess_mono_dur (r := r) hdd
  refine ⟨⟨m1, (flood_depths_mono m1).1, (flood_depths_mono m1).2⟩,
    ⟨m2, (flood_depths_mono m2).1, (flood_depths_mono m2).2⟩, ?_⟩
  simp only [FloodSim.calculate_effective_rainfall]
  have e1 : max (0 : ℚ) (0 - FloodSim.infiltration_rate) = 0 :=
    max_eq_left (by norm_num [FloodSim.infiltration_rate])
  rw [e1]
  have e2 : max (0 : ℚ) (0 - FloodSim.drainage_capacity) = 0 :=
    max_eq_left (by norm_num [FloodSim.drainage_capacity])
  rw [e2, zero_mul, zero_mul]

/-- C4 witness: concrete instances of the amended monotonicity. -/
theorem c4_flood_monotonicity_witness :
    ((50 : ℚ) ≤ 60 ∧ (0 : ℚ) ≤ 2 ∧ (1 : ℚ) ≤ 3) ∧
    (FloodSim.calculate_effective_rainfall 50 2).2.2
      ≤ (FloodSim.calculate_effective_rainfall 60 2).2.2 :=
  ⟨⟨by norm_num, by norm_num, by norm_num⟩,
   ((c4_flood_monotonicity 50 60 2 65 1 3 (-7) (by norm_num) (by norm_num) (by norm_num)).1).1⟩

/-- C5 counterexample: the claim reads directions modulo 360°, under which
350° and −10° denote the same direction (10° from the north axis) and would
both get factor 1.15; the code compares `|direction − axis|` without modular
reduction, so 350° gets 0.9 while −10° gets 1.15. -/
theorem c5_directional_factor_counterexample :
    WindSim._calculate_directional_factor 350 = 0.9 ∧
    WindSim._calculate_directional_factor (350 - 360) = 1.15 ∧
    (350 : ℚ) - (350 - 360) = 360 := by
  refine ⟨?_, ?_, by norm_num⟩ <;>
    norm_num [WindSim._calculate_directional_factor, min_def, abs]

/-- C5 (amended): the directional factor is 1.15 exactly when some cardinal
street axis in `{0, 90, 180, 270}` is within 15° of the direction, 1.05
exactly when no axis is within 15° but some axis is within 30°, and 0.9
exactly when every axis is more than 30° away — the angular distance taken as
the plain `|direction − axis|` of the source, with no reduction modulo 360°;
in particular direction 0° gives 1.15 and direction 45° gives 0.9. -/
theorem c5_directional_factor_bands (d : ℚ) :
    (WindSim._calculate_directional_factor d = 1.15 ↔
      ∃ a ∈ WindSim.main_street_directions, |d - a| ≤ 15) ∧
    (WindSim._calculate_directional_factor d = 1.05 ↔
      ((¬ ∃ a ∈ WindSim.main_street_directions, |d - a| ≤ 15) ∧
        ∃ a ∈ WindSim.main_street_directions, |d - a| ≤ 30)) ∧
    (WindSim._calculate_directional_factor d = 0.9 ↔
      ∀ a ∈ WindSim.main_street_directions, 30 < |d - a|) ∧
    WindSim._calculate_directional_factor 0 = 1.15 ∧
    WindSim._calculate_directional_factor 45 = 0.9 := by
  have hex15 := exists_axis_le_iff d 15
  have hex30 := exists_axis_le_iff d 30
  have hall := forall_axis_lt_iff d 30
  refine ⟨?_, ?_, ?_, ?_, ?_⟩
  · simp only [WindSim._calculate_directional_factor]
    split_ifs with h1 h2
    · exact iff_of_true rfl (hex15.mpr h1)
    · exact iff_of_false (by norm_num) (fun he => h1 (hex15.mp he))
    · exact iff_of_false (by norm_num) (fun he => h1 (hex15.mp he))
  · simp only [WindSim._calculate_directional_factor]
    split_ifs with h1 h2
    · exact iff_of_false (by norm_num) (fun hc => hc.1 (hex15.mpr h1))
    · exact iff_of_true rfl ⟨fun he => h1 (hex15.mp he), hex30.mpr h2⟩
    · exact iff_of_false (by norm_num) (fun hc => h2 (hex30.mp hc.2))
  · simp only [WindSim._calculate_directional_factor]
    split_ifs with h1 h2
    · refine iff_of_false (by norm_num) (fun hf => ?_)
      have h30 := hall.mp hf
      linarith
    · refine iff_of_false (by norm_num) (fun hf => ?_)
      have h30 := hall.mp hf
      linarith
    · exact iff_of_true rfl (hall.mpr (not_le.mp h2))
  · norm_num [WindSim._calculate_directional_factor, min_def, abs]
  · norm_num [WindSim._calculate_directional_factor, min_def, abs]

/-- C6: the claim says `calculate_pmv_detailed` always completes and returns
a PMV clamped to `[-3, 3]`; in fact the very first pass of its
clothing-surface-temperature iteration reads the local `tcl_k` before any
assignment to it (the radiative coefficient `hr` is computed from the
previous pass's `tcl_k`, which does not exist yet), so the function fails
with `UnboundLocalError` on every input. -/
theorem c6_pmv_detailed_always_fails (rexp rsqrt rpow25 : ℚ → ℚ)
    (ta tr va rh met clo : ℚ) (pa0 : Option ℚ) :
    ThermalSim.calculate_pmv_detailed rexp rsqrt rpow25 ta tr va rh met clo pa0
      = Except.error "UnboundLocalError: tcl_k referenced before assignment" := rfl

/-- C7: for every PMV, the PPD computation returns
`100 − 95·exp(−0.03353·PMV⁴ − 0.2179·PMV²)` clamped to `[5, 100]` (so it is
floored at 5%), and at `PMV = 0` it returns exactly 5 (using `exp 0 = 1`). -/
theorem c7_ppd_formula_and_floor (rexp : ℚ → ℚ) (pmv : ℚ) (h0 : rexp 0 = 1) :
    ThermalSim.calculate_ppd_from_pmv rexp pmv
        = max 5.0 (min 100.0 (100 - 95 * rexp (-0.03353 * pmv ^ 4 - 0.2179 * pmv ^ 2))) ∧
    5 ≤ ThermalSim.calculate_ppd_from_pmv rexp pmv ∧
    ThermalSim.calculate_ppd_from_pmv rexp pmv ≤ 100 ∧
    ThermalSim.calculate_ppd_from_pmv rexp 0 = 5 := by
  refine ⟨rfl, ?_, ?_, ?_⟩
  · simp only [ThermalSim.calculate_ppd_from_pmv]
    exact le_trans (by norm_num) (le_max_left 5.0 _)
  · simp only [ThermalSim.calculate_ppd_from_pmv]
    exact max_le (by norm_num) (le_trans (min_le_left _ _) (by norm_num))
  · simp only [ThermalSim.calculate_ppd_from_pmv]
    rw [show (-0.03353 * (0 : ℚ) ^ 4 - 0.2179 * (0 : ℚ) ^ 2) = 0 by norm_num, h0]
    norm_num [min_def, max_def]

/-- C7 witness: a concrete exponential with `exp 0 = 1` evaluated at PMV 0. -/
theorem c7_ppd_formula_and_floor_witness :
    ThermalSim.calculate_ppd_from_pmv (fun _ => 1) 0 = 5 :=
  (c7_ppd_formula_and_floor (fun _ => 1) 0 rfl).2.2.2

/-- C8 counterexample: the claim covers every input including physically
nonsensical reference speeds, but for `wind_speed_ref = -5` m/s the maximal
tunnel speed the simulation generates is `-6.9` m/s, which is negative. -/
theorem c8_negative_reference_counterexample :
    (WindSim.calculate_urban_effects (fun _ => 0) (-5) 0).max_tunnel_speed < 0 := by
  norm_num [WindSim.calculate_urban_effects, WindSim._calculate_directional_factor,
    WindSim.building_density, WindSim.tunnel_amplification, min_def, abs]

/-- C8 (amended): the vertical-profile speed is nonnegative for every input
(it is floored at 0), and for every *nonnegative* reference speed all four
urban speeds (max tunnel, min wake, average urban, pedestrian) and the speed
field of every generated wind-field point are nonnegative. -/
theorem c8_wind_speeds_nonneg (E : Entropy) (rlog radians rcos rsin : ℚ → ℚ)
    (loc : LocationConfig) (u direction : ℚ) (scenario_name : String) (g : RngState)
    (hu : 0 ≤ u) (hE : E.UniformInRange) :
    (∀ height v z_ref z0, 0 ≤ WindSim.calculate_wind_profile rlog height v z_ref z0) ∧
    0 ≤ (WindSim.calculate_urban_effects rlog u direction).max_tunnel_speed ∧
    0 ≤ (WindSim.calculate_urban_effects rlog u direction).min_wake_speed ∧
    0 ≤ (WindSim.calculate_urban_effects rlog u direction).avg_urban_speed ∧
    0 ≤ (WindSim.calculate_urban_effects rlog u direction).pedestrian_speed ∧
    ∀ p ∈ (WindSim.generate_wind_field E radians rcos rsin loc scenario_name u direction
      (WindSim.calculate_urban_effects rlog u direction) g).1, 0 ≤ p.speed := by
  obtain ⟨h1, h2, h3, h4⟩ := urban_effects_nonneg rlog direction hu
  refine ⟨fun h v zr z0 => wind_profile_nonneg rlog h v zr z0, h1, h2, h3, h4, ?_⟩
  intro p hp
  simp only [WindSim.generate_wind_field, List.mem_map] at hp
  obtain ⟨i, -, rfl⟩ := hp
  exact wind_field_point_speed_nonneg E radians rcos rsin loc direction _ _ i hE h1 h2 h3

/-- C8 witness: the amended invariant evaluated at reference speed 5 m/s
with a concrete entropy family. -/
theorem c8_wind_speeds_nonneg_witness :
    (0 : ℚ) ≤ 5 ∧
    ∀ p ∈ (WindSim.generate_wind_field constantEntropy (fun _ => 0) (fun _ => 0) (fun _ => 0)
      suwalki_location "Silny wiatr" 5 0
      (WindSim.calculate_urban_effects (fun _ => 0) 5 0) (0, 0)).1, 0 ≤ p.speed :=
  ⟨by norm_num,
   (c8_wind_speeds_nonneg constantEntropy (fun _ => 0) (fun _ => 0) (fun _ => 0) (fun _ => 0)
     suwalki_location 5 0 "Silny wiatr" (0, 0) (by norm_num)
     (fun _ _ _ b hab => ⟨le_rfl, hab⟩)).2.2.2.2.2⟩

/-- C9: evaluating the logarithmic vertical wind profile at the simulator's
own reference height (10 m) with the default roughness length (0.3 m) returns
exactly the reference speed whenever it is nonnegative — the numerator and
denominator logarithms coincide, so the profile is anchored at its reference
(assuming only that the common logarithm value is nonzero, as the real
`np.log((10+0.3)/0.3)` is). -/
theorem c9_profile_reference_identity (rlog : ℚ → ℚ) (u_ref : ℚ)
    (hlog : rlog ((WindSim.reference_height + WindSim.surface_roughness)
      / WindSim.surface_roughness) ≠ 0)
    (hu : 0 ≤ u_ref) :
    WindSim.calculate_wind_profile rlog WindSim.reference_height u_ref
      WindSim.reference_height WindSim.surface_roughness = u_ref := by
  simp only [WindSim.calculate_wind_profile]
  rw [if_neg (by norm_num [WindSim.reference_height, WindSim.surface_roughness])]
  rw [mul_div_assoc, div_self hlog, mul_one, max_eq_right hu]

/-- C9 witness: a concrete logarithm model and reference speed 7 m/s. -/
theorem c9_profile_reference_identity_witness :
    (0 : ℚ) ≤ 7 ∧
    WindSim.calculate_wind_profile (fun _ => 1) WindSim.reference_height 7
      WindSim.reference_height WindSim.surface_roughness = 7 :=
  ⟨by norm_num, c9_profile_reference_identity (fun _ => 1) 7 one_ne_zero (by norm_num)⟩

/-- C1: for a fixed configuration and fixed scenario input (including the
scenario name), the results of `simulate_scenario` — every derived metric and
every spatial point, everything except the echoed wall-clock timestamp — are
the same whatever the incoming pseudo-random generator state and whatever the
call time: each point generator reseeds the generator from a deterministic
function of the scenario identity before drawing, so two calls yield
identical metrics and identical point collections (same order, same values).
Stated for the flood and wind pipelines and for the thermal comfort-point
generator. -/
theorem c1_reseeded_determinism :
    (∀ (E : Entropy) (pyHash : String → ℤ) (rsqrt : ℚ → ℚ) (loc : LocationConfig)
      (rainfall duration : ℚ) (scenario_name now1 now2 : String) (detailed : Bool)
      (g1 g2 : RngState),
      (FloodSim.simulate_scenario E pyHash rsqrt loc rainfall duration scenario_name
        detailed now1 g1).1
        = { (FloodSim.simulate_scenario E pyHash rsqrt loc rainfall duration scenario_name
            detailed now2 g2).1 with computation_time := now1 }) ∧
    (∀ (E : Entropy) (rlog radians rcos rsin : ℚ → ℚ) (loc : LocationConfig)
      (u direction : ℚ) (scenario_name now1 now2 : String) (detailed : Bool)
      (g1 g2 : RngState),
      (WindSim.simulate_scenario E rlog radians rcos rsin loc u direction scenario_name
        detailed now1 g1).1
        = { (WindSim.simulate_scenario E rlog radians rcos rsin loc u direction scenario_name
            detailed now2 g2).1 with computation_time := now1 }) ∧
    (∀ (E : Entropy) (rexp : ℚ → ℚ) (pyHash : String → ℤ) (loc : LocationConfig)
      (scenario_name : String) (zones : List (String × ThermalSim.ZoneSummary))
      (overall : ℚ) (g1 g2 : RngState),
      (ThermalSim.generate_comfort_points E rexp pyHash loc scenario_name zones
        overall g1).1
        = (ThermalSim.generate_comfort_points E rexp pyHash loc scenario_name zones
          overall g2).1) := by
  refine ⟨?_, ?_, ?_⟩
  · intro E pyHash rsqrt loc rainfall duration name now1 now2 detailed g1 g2
    cases detailed <;> rfl
  · intro E rlog radians rcos rsin loc u direction name now1 now2 detailed g1 g2
    cases detailed <;> rfl
  · intro E rexp pyHash loc name zones overall g1 g2
    rfl

/-- C10: two calls to the wind `simulate_scenario` with the same reference
speed and direction but different scenario names produce results that agree
on every field — the wind-field point list and all derived metric blocks —
except the echoed `scenario_name`: the wind spatial-field seed is derived
solely from the direction and speed, and the generator never reads the name. -/
theorem c10_wind_scenario_name_independence :
    ∀ (E : Entropy) (rlog radians rcos rsin : ℚ → ℚ) (loc : LocationConfig)
      (u direction : ℚ) (name1 name2 now : String) (detailed : Bool) (g : RngState),
      (WindSim.simulate_scenario E rlog radians rcos rsin loc u direction name1
        detailed now g).1
        = { (WindSim.simulate_scenario E rlog radians rcos rsin loc u direction name2
            detailed now g).1 with scenario_name := name1 } := by
  intro E rlog radians rcos rsin loc u direction name1 name2 now detailed g
  cases detailed <;> rfl

end GisPortfolio
